import Mathlib

/-!
Shallow embedding of the FCD CSI controller
(`pkg/csi/service/fcd/controller.go`) of `cloud-provider-vsphere`.

Pure Go code is translated to Lean functions; the collaborator calls
(connection manager, datacenter driver) are passed in as explicit
environment records, and the per-call effects that matter to the
verified properties (number of backend create/delete/attach calls,
the resulting pool state) are returned alongside the response.
Go runtime panics (out-of-range slice, failed type assertion,
nil-pointer dereference) are modelled by `none` in an `Option`-wrapped
result.  Machine integers are modelled by `Int`; Go integer division
truncates toward zero, which is `Int.tdiv`.
-/

namespace FCD

/-- gRPC status codes used by the controller. -/
inductive GrpcCode
  | internal
  | alreadyExists
  | invalidArgument
  | notFound
deriving DecidableEq

/-- A gRPC status error: `status.Errorf(code, msg)`. -/
structure GrpcStatus where
  code : GrpcCode
  msg : String
deriving DecidableEq

/-- An error surfaced by a handler: either a gRPC status error or a raw
error passed through unchanged (`return nil, err`). -/
inductive CtrlErr
  | status (s : GrpcStatus)
  | raw (msg : String)
deriving DecidableEq

/-- The two storage-pool kinds (`vclib.TypeDatastore`,
`vclib.TypeDatastoreCluster`). -/
inductive DatastoreType
  | datastore
  | datastoreCluster
deriving DecidableEq

/-- Modelled from the spec: the exact string literal of
`vclib.TypeDatastore` (the single-datastore kind); the constant is
defined outside `src/`. -/
def typeDatastoreString : String := "Datastore"

/-- Modelled from the spec: the exact string literal of
`vclib.TypeDatastoreCluster` (the pool-cluster kind); the constant is
defined outside `src/`. -/
def typeDatastoreClusterString : String := "StoragePod"

/-- The string carried by a `DatastoreType` value. -/
def datastoreTypeString : DatastoreType → String
  | .datastore => typeDatastoreString
  | .datastoreCluster => typeDatastoreClusterString

/-- Modelled from the spec: the backend type marker literal
(`FirstClassDiskTypeString`, defined outside `src/`). -/
def firstClassDiskTypeString : String := "First Class Disk"

/-- Modelled from the spec: the fixed default volume size in GiB
(`DefaultGbDiskSize`, defined outside `src/`; the spec fixes it at
10 GiB). -/
def defaultGbDiskSize : Int := 10

/-- Modelled from the spec: one gibibyte in bytes (`GbInBytes`,
defined outside `src/`). -/
def gbInBytes : Int := 1073741824

/-- Modelled from the spec: one mebibyte in bytes (`MbInBytes`,
defined outside `src/`). -/
def mbInBytes : Int := 1048576

/-- `volumeutil.RoundUpSize` from the Kubernetes volume utilities:
`(volumeSizeBytes + allocationUnitBytes - 1) / allocationUnitBytes`
with Go integer division (truncation toward zero). -/
def roundUpSize (volumeSizeBytes allocationUnitBytes : Int) : Int :=
  Int.tdiv (volumeSizeBytes + allocationUnitBytes - 1) allocationUnitBytes

/-- The optional capacity range of a CreateVolume request
(`req.GetCapacityRange()`, `nil` modelled by `Option`). -/
structure CapacityRange where
  requiredBytes : Int
deriving DecidableEq

/-- Lines 125-130 of the controller: the volume size in MB.
Defaults to `DefaultGbDiskSize*GbInBytes` bytes when the capacity
range is absent or its required bytes is zero, then
`RoundUpSize(bytes, GbInBytes) * 1024`. -/
def computeVolSizeMB (capacityRange : Option CapacityRange) : Int :=
  let volSizeBytes : Int :=
    match capacityRange with
    | some cr => if cr.requiredBytes ≠ 0 then cr.requiredBytes else defaultGbDiskSize * gbInBytes
    | none => defaultGbDiskSize * gbInBytes
  roundUpSize volSizeBytes gbInBytes * 1024

/-- Lines 132-137: the datastore type defaults to
`TypeDatastoreCluster`; only an exact match with the
`TypeDatastore` literal selects the single-datastore kind. -/
def selectDatastoreType (volType : String) : DatastoreType :=
  if volType = typeDatastoreString then .datastore else .datastoreCluster

/-- `strconv.Atoi`: an optional leading sign followed by at least one
ASCII digit; anything else is a parse error (`none`).  The Go 64-bit
overflow error is not modelled (no claim depends on it). -/
def goAtoi (s : String) : Option Int :=
  let withSign : Bool × List Char :=
    match s.data with
    | '-' :: rest => (true, rest)
    | '+' :: rest => (false, rest)
    | cs => (false, cs)
  match withSign with
  | (neg, digits) =>
    if digits = [] then none
    else if digits.all (fun c => c.isDigit) then
      let n : Nat := digits.foldl (fun acc c => acc * 10 + (c.toNat - 48)) 0
      some (if neg then -(n : Int) else (n : Int))
    else none

/-- Go slice expression `xs[a:]`: valid iff `0 ≤ a ≤ len xs`,
otherwise a runtime panic (`none`). -/
def goSliceFrom {α : Type} (xs : List α) (a : Int) : Option (List α) :=
  if 0 ≤ a ∧ a ≤ (xs.length : Int) then some (xs.drop a.toNat) else none

/-- Go slice expression `xs[a:b]`: valid iff `0 ≤ a ≤ b ≤ len xs`,
otherwise a runtime panic (`none`). -/
def goSlice {α : Type} (xs : List α) (a b : Int) : Option (List α) :=
  if 0 ≤ a ∧ a ≤ b ∧ b ≤ (xs.length : Int) then
    some ((xs.take b.toNat).drop a.toNat)
  else none

/-- The backing descriptor of a disk: the source only handles the
file-backed kind (`BaseConfigInfoDiskFileBackingInfo`); every other
kind makes the Go type assertion panic. -/
inductive Backing
  | fileBacking (filePath : String)
  | otherBacking
deriving DecidableEq

/-- The fields of `vclib.FirstClassDiskInfo` that the controller
reads: `Config.Name`, `Config.Id.Id`, `Config.CapacityInMB`,
`Config.Backing`, `ParentType`, `StoragePodInfo.Summary.Name`,
`DatastoreInfo.Info.Name`, and (for ListVolumes entries) the owning
datacenter name and the vCenter client URL host. -/
structure FirstClassDisk where
  name : String
  id : String
  capacityInMB : Int
  parentType : DatastoreType
  storagePodName : String
  datastoreName : String
  backing : Backing
  dcName : String
  vcHost : String
deriving DecidableEq

/-- The keys of the attribute maps returned to the caller
(`AttributeFirstClassDisk*`; the key string literals are defined
outside `src/`, so the keys are modelled as an enumeration). -/
inductive AttrKey
  | diskType
  | vcenter
  | datacenter
  | diskName
  | parentType
  | parentName
  | owningDatastore
  | page83Data
deriving DecidableEq

/-- The attribute map built at lines 214-225 (and verbatim again at
lines 321-332 and 434-445): type marker, vCenter server, datacenter,
disk name, parent type, then the parent name — from the storage pod
when the parent is a datastore cluster, in which case the owning
datastore is also recorded, else from the datastore. -/
def mkAttributes (vcServer dcName : String) (fcd : FirstClassDisk) : List (AttrKey × String) :=
  [(AttrKey.diskType, firstClassDiskTypeString),
   (AttrKey.vcenter, vcServer),
   (AttrKey.datacenter, dcName),
   (AttrKey.diskName, fcd.name),
   (AttrKey.parentType, datastoreTypeString fcd.parentType)] ++
  (if fcd.parentType = DatastoreType.datastoreCluster then
    [(AttrKey.parentName, fcd.storagePodName),
     (AttrKey.owningDatastore, fcd.datastoreName)]
  else
    [(AttrKey.parentName, fcd.datastoreName)])

/-- Modelled from the spec: `removePortFromHost` (helper outside
`src/`) strips the port from the vCenter client host — everything
from the first colon on is dropped. -/
def removePortFromHost (host : String) : String :=
  String.mk (host.data.takeWhile (fun c => c != ':'))

/-- A CSI volume as returned by CreateVolume and ListVolumes entries:
id, capacity in bytes (`CapacityInMB * MbInBytes`; the Go detour
through the float64 `units.FileSize` is exact for all realistic
capacities and is not modelled), and the attribute map. -/
structure CsiVolume where
  volumeId : String
  capacityBytes : Int
  volumeContext : List (AttrKey × String)
deriving DecidableEq

/-- A topology segment, projected at the two label keys
(`LabelZoneRegion`, `LabelZoneFailureDomain`); a key missing from the
Go segments map reads as `""`. -/
structure Segment where
  zone : String
  region : String
deriving DecidableEq

/-- `csi.TopologyRequirement`: requisite and preferred segment lists;
`Option` models Go `nil` slices (the source distinguishes nil from
empty). -/
structure TopologyRequirement where
  requisite : Option (List Segment)
  preferred : Option (List Segment)
deriving DecidableEq

/-- The CreateVolume parameters map, projected at the four keys the
controller reads; a missing key reads as `""` as in Go. -/
structure Params where
  parentType : String
  parentName : String
  zone : String
  region : String
deriving DecidableEq

/-- `csi.CreateVolumeRequest`, restricted to the fields the
controller reads. -/
structure CreateVolumeRequest where
  name : String
  parameters : Option Params
  capacityRange : Option CapacityRange
  accessibilityRequirements : Option TopologyRequirement
deriving DecidableEq

/-- `cm.ZoneDiscoveryInfo`: the resolved vCenter server and
datacenter. -/
structure ZoneDiscoveryInfo where
  vcServer : String
  dcName : String
deriving DecidableEq

/-- The environment of a CreateVolume call: the configured labels
(`c.cfg.Labels`), the connection manager's `WhichVCandDCByZone`
(a collaborator outside `src/`, modelled as an oracle), and the
state of the storage pool addressed by the request's
(parent-name, parent-type) pair in the resolved datacenter, together
with how the backend materializes a freshly created disk
(`allocate`) and an injectable create failure (`createErr`). -/
structure CreateEnv where
  cfgZone : String
  cfgRegion : String
  whichVCandDCByZone : String → String → String → String → Except String ZoneDiscoveryInfo
  pool : List FirstClassDisk
  allocate : String → Int → FirstClassDisk
  createErr : Option String

/-- Modelled from the spec: `vclib.Datacenter.GetFirstClassDisk`
with `FindFCDByName` (outside `src/`) — lookup by name within the
given pool. -/
def findFCDByName : List FirstClassDisk → String → Option FirstClassDisk
  | [], _ => none
  | d :: rest, n => if d.name = n then some d else findFCDByName rest n

/-- The loop bodies of lines 152-161 and 164-173: walk the segments
in order, calling `WhichVCandDCByZone` on each; stop at the first
success.  The pair returned is the final (discoveryInfo, err) state
of the Go variables: an empty list leaves both `nil`. -/
def loopSegments (env : CreateEnv) : List Segment → Option ZoneDiscoveryInfo × Option String
  | [] => (none, none)
  | seg :: rest =>
    match env.whichVCandDCByZone env.cfgZone env.cfgRegion seg.zone seg.region with
    | .ok di => (some di, none)
    | .error e =>
      match rest with
      | [] => (none, some e)
      | r :: rs => loopSegments env (r :: rs)

/-- Lines 147-178: if an accessibility requirement is present with a
non-nil requisite or preferred list, walk the requisite list when it
is non-nil, else the preferred list; otherwise resolve with the
legacy request zone/region. -/
def resolveZone (env : CreateEnv) (acc : Option TopologyRequirement)
    (zone region : String) : Option ZoneDiscoveryInfo × Option String :=
  let legacy : Option ZoneDiscoveryInfo × Option String :=
    match env.whichVCandDCByZone env.cfgZone env.cfgRegion zone region with
    | .ok di => (some di, none)
    | .error e => (none, some e)
  match acc with
  | some a =>
    match a.requisite with
    | some reqs => loopSegments env reqs
    | none =>
      match a.preferred with
      | some prefs => loopSegments env prefs
      | none => legacy
  | none => legacy

/-- The volume of a CreateVolume response (lines 227-234). -/
def mkVolume (di : ZoneDiscoveryInfo) (disk : FirstClassDisk) : CsiVolume :=
  { volumeId := disk.id
    capacityBytes := disk.capacityInMB * mbInBytes
    volumeContext := mkAttributes di.vcServer di.dcName disk }

instance exceptDecEq {ε α : Type} [DecidableEq ε] [DecidableEq α] :
    DecidableEq (Except ε α) := fun x y =>
  match x, y with
  | .ok a, .ok b =>
    if h : a = b then .isTrue (congrArg Except.ok h)
    else .isFalse (fun he => h (by injection he))
  | .error a, .error b =>
    if h : a = b then .isTrue (congrArg Except.error h)
    else .isFalse (fun he => h (by injection he))
  | .ok _, .error _ => .isFalse (fun he => Except.noConfusion he)
  | .error _, .ok _ => .isFalse (fun he => Except.noConfusion he)

/-- The outcome of a CreateVolume call: the response or error
(`none` models a Go runtime panic), the number of underlying
`CreateFirstClassDisk` calls issued, and the pool state afterwards. -/
structure CreateOutcome where
  result : Option (Except GrpcStatus CsiVolume)
  createCalls : Nat
  pool : List FirstClassDisk
deriving DecidableEq

/-- `controller.CreateVolume` (lines 92-237).  Validation first (each
failure is `codes.Internal`), then the size/type computations, zone
resolution, the create-or-get against the pool, and the response. -/
def createVolume (env : CreateEnv) (req : CreateVolumeRequest) : CreateOutcome :=
  match req.parameters with
  | none => ⟨some (.error ⟨.internal, "Create parameters is a required parameter."⟩), 0, env.pool⟩
  | some params =>
    if req.name = "" then
      ⟨some (.error ⟨.internal, "Volume name is a required parameter."⟩), 0, env.pool⟩
    else if params.parentType = "" then
      ⟨some (.error ⟨.internal, "Volume parameter ParentType is a required parameter."⟩), 0, env.pool⟩
    else if params.parentName = "" then
      ⟨some (.error ⟨.internal, "Volume parameter ParentName is a required parameter."⟩), 0, env.pool⟩
    else
      let volSizeMB := computeVolSizeMB req.capacityRange
      match resolveZone env req.accessibilityRequirements params.zone params.region with
      | (_, some e) =>
        ⟨some (.error ⟨.internal,
          "Failed to retrieve VC/DC based on zone " ++ params.zone ++ ". Err: " ++ e⟩), 0, env.pool⟩
      | (none, none) => ⟨none, 0, env.pool⟩
      | (some di, none) =>
        match findFCDByName env.pool req.name with
        | some disk =>
          if disk.capacityInMB ≠ volSizeMB then
            ⟨some (.error ⟨.alreadyExists,
              "Volume already exists but requesting different size. Existing " ++
                toString disk.capacityInMB ++ " != Requested " ++ toString volSizeMB⟩),
             0, env.pool⟩
          else
            ⟨some (.ok (mkVolume di disk)), 0, env.pool⟩
        | none =>
          match env.createErr with
          | some e =>
            ⟨some (.error ⟨.internal, "CreateFirstClassDisk failed. Err: " ++ e⟩), 1, env.pool⟩
          | none =>
            let newPool := env.pool ++ [env.allocate req.name volSizeMB]
            match findFCDByName newPool req.name with
            | none =>
              ⟨some (.error ⟨.internal,
                "GetFirstClassDiskByName(" ++ req.name ++ ") failed."⟩), 1, newPool⟩
            | some disk =>
              ⟨some (.ok (mkVolume di disk)), 1, newPool⟩

/-- The dedicated not-found error of id resolution
(`vclib.ErrNoDiskIDFound`) versus any other resolution failure. -/
inductive FcdIdErr
  | noDiskIDFound
  | otherErr (msg : String)
deriving DecidableEq

/-- The message text of a resolution failure, used when the
controller interpolates the error. -/
def fcdIdErrString : FcdIdErr → String
  | .noDiskIDFound => "No disk ID found"
  | .otherErr m => m

/-- `cm.FcdDiscoveryInfo` as consumed by the id-resolving handlers:
vCenter server, datacenter name and the resolved disk
(`FCDInfo`). -/
structure FCDDiscoveryInfo where
  vcServer : String
  dcName : String
  fcdInfo : FirstClassDisk
deriving DecidableEq

/-- The environment of a DeleteVolume call: the connection manager's
`WhichVCandDCByFCDId` and the datacenter driver's
`DeleteFirstClassDisk(datastoreName, datastoreType, id)` (both
collaborators outside `src/`, modelled as oracles; `none` means the
delete succeeded). -/
structure DeleteEnv where
  resolveFCD : String → Except FcdIdErr FCDDiscoveryInfo
  deleteDisk : String → DatastoreType → String → Option String

/-- The outcome of a DeleteVolume call: the result and the number of
underlying delete calls issued. -/
structure DeleteOutcome where
  result : Except GrpcStatus Unit
  deleteCalls : Nat
deriving DecidableEq

/-- `controller.DeleteVolume` (lines 239-278).  Empty id fails
internal; `ErrNoDiskIDFound` from id resolution is success with no
delete call; any other resolution failure is internal; otherwise the
pool name is taken from the datastore info for a single datastore
and from the storage pod for a cluster, and the disk is deleted. -/
def deleteVolume (env : DeleteEnv) (volumeId : String) : DeleteOutcome :=
  if volumeId = "" then
    ⟨.error ⟨.internal, "Volume ID is a required parameter."⟩, 0⟩
  else
    match env.resolveFCD volumeId with
    | .error .noDiskIDFound => ⟨.ok (), 0⟩
    | .error (.otherErr m) =>
      ⟨.error ⟨.internal, "WhichVCandDCByFCDId(" ++ volumeId ++ ") failed. Err: " ++ m⟩, 0⟩
    | .ok di =>
      let datastoreType := di.fcdInfo.parentType
      let datastoreName :=
        if datastoreType = DatastoreType.datastore then di.fcdInfo.datastoreName
        else di.fcdInfo.storagePodName
      match env.deleteDisk datastoreName datastoreType volumeId with
      | some e =>
        ⟨.error ⟨.internal, "DeleteFirstClassDisk(" ++ volumeId ++ ") failed. Err: " ++ e⟩, 1⟩
      | none => ⟨.ok (), 1⟩

/-- The environment of publish/unpublish calls: id resolution, node
resolution by DNS name, and the node's attach/detach operations
(collaborators outside `src/`, modelled as oracles).  Attach takes
the resolved VM and the backing file path and yields the disk UUID;
the fixed `PVSCSIControllerType` option of line 312 does not vary and
is not a parameter. -/
structure PublishEnv where
  resolveFCD : String → Except FcdIdErr FCDDiscoveryInfo
  getVMByDNSName : String → Except String String
  attachDisk : String → String → Except String String
  detachDisk : String → String → Option String

/-- A ControllerPublishVolume response: the publish context. -/
structure PublishResp where
  publishContext : List (AttrKey × String)
deriving DecidableEq

/-- The outcome of a ControllerPublishVolume call (`none` models the
panic of the backing type assertion) and the number of attach calls
issued. -/
structure PublishOutcome where
  result : Option (Except CtrlErr PublishResp)
  attachCalls : Nat
deriving DecidableEq

/-- `controller.ControllerPublishVolume` (lines 280-340).  Both ids
required (internal on empty); any id-resolution failure — including
the dedicated not-found error — is internal; node-resolution and
attach failures are passed through raw; on success the publish
context is the standard attribute map plus the page-83 key. -/
def controllerPublishVolume (env : PublishEnv) (volumeId nodeId : String) : PublishOutcome :=
  if volumeId = "" then
    ⟨some (.error (.status ⟨.internal, "Volume ID is a required parameter."⟩)), 0⟩
  else if nodeId = "" then
    ⟨some (.error (.status ⟨.internal, "Node ID is a required parameter."⟩)), 0⟩
  else
    match env.resolveFCD volumeId with
    | .error e =>
      ⟨some (.error (.status ⟨.internal,
        "WhichVCandDCByFCDId(" ++ volumeId ++ ") failed. Err: " ++ fcdIdErrString e⟩)), 0⟩
    | .ok di =>
      match env.getVMByDNSName nodeId with
      | .error e => ⟨some (.error (.raw e)), 0⟩
      | .ok vm =>
        match di.fcdInfo.backing with
        | .otherBacking => ⟨none, 0⟩
        | .fileBacking filePath =>
          match env.attachDisk vm filePath with
          | .error e => ⟨some (.error (.raw e)), 1⟩
          | .ok diskUUID =>
            ⟨some (.ok ⟨mkAttributes di.vcServer di.dcName di.fcdInfo ++
              [(AttrKey.page83Data, diskUUID)]⟩), 1⟩

/-- The outcome of a ControllerUnpublishVolume call (`none` models
the backing type-assertion panic) and the number of detach calls
issued. -/
structure UnpublishOutcome where
  result : Option (Except CtrlErr Unit)
  detachCalls : Nat
deriving DecidableEq

/-- `controller.ControllerUnpublishVolume` (lines 342-383).  Both ids
required (internal on empty); any id-resolution failure is internal;
node-resolution and detach failures are passed through raw. -/
def controllerUnpublishVolume (env : PublishEnv) (volumeId nodeId : String) : UnpublishOutcome :=
  if volumeId = "" then
    ⟨some (.error (.status ⟨.internal, "Volume ID is a required parameter."⟩)), 0⟩
  else if nodeId = "" then
    ⟨some (.error (.status ⟨.internal, "Node ID is a required parameter."⟩)), 0⟩
  else
    match env.resolveFCD volumeId with
    | .error e =>
      ⟨some (.error (.status ⟨.internal,
        "WhichVCandDCByFCDId(" ++ volumeId ++ ") failed. Err: " ++ fcdIdErrString e⟩)), 0⟩
    | .ok di =>
      match env.getVMByDNSName nodeId with
      | .error e => ⟨some (.error (.raw e)), 0⟩
      | .ok vm =>
        match di.fcdInfo.backing with
        | .otherBacking => ⟨none, 0⟩
        | .fileBacking filePath =>
          match env.detachDisk vm filePath with
          | some e => ⟨some (.error (.raw e)), 1⟩
          | none => ⟨some (.ok ()), 1⟩

/-- A ListVolumes entry (lines 433-455): the attribute map uses the
disk's own datacenter and its client URL host with the port
removed. -/
def mkListEntry (d : FirstClassDisk) : CsiVolume :=
  { volumeId := d.id
    capacityBytes := d.capacityInMB * mbInBytes
    volumeContext := mkAttributes (removePortFromHost d.vcHost) d.dcName d }

/-- A ListVolumes response: entries and the optional next token. -/
structure ListResp where
  entries : List CsiVolume
  nextToken : Option String
deriving DecidableEq

/-- `controller.ListVolumes` (lines 393-463) over the disk set
returned by `getAllFCDs` (a collaborator outside `src/`, modelled as
the input list).  An empty token starts at 0; a non-numeric token is
internal; `stop` starts at `total` and becomes
`start + maxEntries - 1` when `maxEntries` is non-zero and `total`
exceeds it; a start beyond `total` is internal; otherwise the Go
slice `[start:]` (when `stop ≥ total`) or `[start:stop+1]` is taken —
`none` models the panic of an out-of-range slice — and a next token
`stop+1` is attached iff `stop < total`. -/
def listVolumes (disks : List FirstClassDisk) (startingToken : String)
    (maxEntries : Int) : Option (Except GrpcStatus ListResp) :=
  let total : Int := disks.length
  let tokenResult : Except GrpcStatus Int :=
    if startingToken = "" then .ok 0
    else
      match goAtoi startingToken with
      | some n => .ok n
      | none => .error ⟨.internal, "Invalid starting token " ++ startingToken ++ "."⟩
  match tokenResult with
  | .error e => some (.error e)
  | .ok start =>
    let stop : Int := if maxEntries ≠ 0 ∧ total > maxEntries then start + maxEntries - 1 else total
    if start > total then
      some (.error ⟨.internal,
        "Invalid start token " ++ toString start ++ ". Greater than total items " ++
          toString total ++ "."⟩)
    else
      let subsetResult : Option (List FirstClassDisk) :=
        if stop ≥ total then goSliceFrom disks start
        else goSlice disks start (stop + 1)
      match subsetResult with
      | none => none
      | some subset =>
        some (.ok
          { entries := subset.map mkListEntry
            nextToken := if stop < total then some (toString (stop + 1)) else none })

/-- `csi.ValidateVolumeCapabilitiesRequest` (contents unused). -/
structure ValidateVolumeCapabilitiesRequest
/-- `csi.ValidateVolumeCapabilitiesResponse` with no fields set. -/
structure ValidateVolumeCapabilitiesResponse
deriving DecidableEq
/-- `csi.GetCapacityRequest` (contents unused). -/
structure GetCapacityRequest
/-- `csi.GetCapacityResponse` (never constructed by the source). -/
structure GetCapacityResponse
deriving DecidableEq
/-- `csi.CreateSnapshotRequest` (contents unused). -/
structure CreateSnapshotRequest
/-- `csi.CreateSnapshotResponse` (never constructed by the source). -/
structure CreateSnapshotResponse
deriving DecidableEq
/-- `csi.DeleteSnapshotRequest` (contents unused). -/
structure DeleteSnapshotRequest
/-- `csi.DeleteSnapshotResponse` (never constructed by the source). -/
structure DeleteSnapshotResponse
deriving DecidableEq
/-- `csi.ListSnapshotsRequest` (contents unused). -/
structure ListSnapshotsRequest
/-- `csi.ListSnapshotsResponse` (never constructed by the source). -/
structure ListSnapshotsResponse
deriving DecidableEq

/-- `controller.ValidateVolumeCapabilities` (lines 385-391): a fresh
empty response and no error, for every request. -/
def validateVolumeCapabilities (_req : ValidateVolumeCapabilitiesRequest) :
    Option ValidateVolumeCapabilitiesResponse × Option GrpcStatus :=
  (some {}, none)

/-- `controller.GetCapacity` (lines 465-471): `nil, nil` — a nil
response and a nil error, for every request. -/
def getCapacity (_req : GetCapacityRequest) :
    Option GetCapacityResponse × Option GrpcStatus :=
  (none, none)

/-- `controller.CreateSnapshot` (lines 505-511): `nil, nil`. -/
def createSnapshot (_req : CreateSnapshotRequest) :
    Option CreateSnapshotResponse × Option GrpcStatus :=
  (none, none)

/-- `controller.DeleteSnapshot` (lines 513-519): `nil, nil`. -/
def deleteSnapshot (_req : DeleteSnapshotRequest) :
    Option DeleteSnapshotResponse × Option GrpcStatus :=
  (none, none)

/-- `controller.ListSnapshots` (lines 521-527): `nil, nil`. -/
def listSnapshots (_req : ListSnapshotsRequest) :
    Option ListSnapshotsResponse × Option GrpcStatus :=
  (none, none)

/-- A Go-map-style lookup in an attribute list (first binding
wins; the maps built by the controller bind every key at most
once). -/
def lookupAttr : List (AttrKey × String) → AttrKey → Option String
  | [], _ => none
  | (k, v) :: rest, key => if key = k then some v else lookupAttr rest key

/-- The invariant claimed for every attribute map handed back to the
caller: the six standard keys are always bound, and the owning
datastore is bound exactly when the recorded parent type is the
datastore-cluster literal. -/
def attrMapComplete (m : List (AttrKey × String)) : Prop :=
  (lookupAttr m AttrKey.diskType).isSome = true ∧
  (lookupAttr m AttrKey.vcenter).isSome = true ∧
  (lookupAttr m AttrKey.datacenter).isSome = true ∧
  (lookupAttr m AttrKey.diskName).isSome = true ∧
  (lookupAttr m AttrKey.parentType).isSome = true ∧
  (lookupAttr m AttrKey.parentName).isSome = true ∧
  ((lookupAttr m AttrKey.owningDatastore).isSome = true ↔
    lookupAttr m AttrKey.parentType = some typeDatastoreClusterString)

/-- The `stop` bound computed by ListVolumes at lines 413-416:
`total`, lowered to `start + maxEntries - 1` when `maxEntries` is
non-zero and `total` exceeds it. -/
def paginationStop (total : Nat) (me start : Int) : Int :=
  if me ≠ 0 ∧ (total : Int) > me then start + me - 1 else (total : Int)

/-- The volume ids of a successful ListVolumes page (`none` when the
call failed or panicked). -/
def pageIds (r : Option (Except GrpcStatus ListResp)) : Option (List String) :=
  match r with
  | some (.ok resp) => some (resp.entries.map (fun v => v.volumeId))
  | _ => none

/-- The next token of a successful ListVolumes page (`none` when the
call failed or panicked). -/
def pageNext (r : Option (Except GrpcStatus ListResp)) : Option (Option String) :=
  match r with
  | some (.ok resp) => some resp.nextToken
  | _ => none

/-- A concrete single-datastore disk used as test data: id `i`,
one GiB, file-backed. -/
def sampleDisk (i : Nat) : FirstClassDisk :=
  { name := "disk" ++ toString i, id := toString i, capacityInMB := 1024,
    parentType := .datastore, storagePodName := "", datastoreName := "ds1",
    backing := .fileBacking "[ds1] f.vmdk", dcName := "dc1", vcHost := "vc1:443" }

/-- Ten concrete disks with ids "0".."9". -/
def disks10 : List FirstClassDisk := (List.range 10).map sampleDisk

/-- Three concrete disks with ids "0".."2". -/
def disks3 : List FirstClassDisk := (List.range 3).map sampleDisk

/-- A concrete resolved backend instance. -/
def sampleDI : ZoneDiscoveryInfo := ⟨"vc1", "dc1"⟩

/-- A concrete well-behaved backend allocator: the created disk
carries the requested name and size. -/
def sampleAllocate (n : String) (sz : Int) : FirstClassDisk :=
  { name := n, id := "id-" ++ n, capacityInMB := sz, parentType := .datastore,
    storagePodName := "", datastoreName := "ds1",
    backing := .fileBacking "[ds1] f.vmdk", dcName := "dc1", vcHost := "vc1:443" }

/-- A concrete CreateVolume environment with an empty pool and an
always-succeeding zone oracle. -/
def envEmptyPool : CreateEnv :=
  { cfgZone := "z1", cfgRegion := "r1",
    whichVCandDCByZone := fun _ _ _ _ => .ok sampleDI,
    pool := [], allocate := sampleAllocate, createErr := none }

/-- A concrete pre-existing disk named `vol0` of the default size
(10240 MB). -/
def existingDisk : FirstClassDisk := sampleAllocate "vol0" 10240

/-- `envEmptyPool` with `existingDisk` already in the pool. -/
def envWithPool : CreateEnv := { envEmptyPool with pool := [existingDisk] }

/-- A concrete CreateVolume environment whose zone oracle succeeds
only on zone `zoneB`. -/
def envZoneB : CreateEnv :=
  { envEmptyPool with
    whichVCandDCByZone := fun _ _ z _ =>
      if z = "zoneB" then .ok ⟨"vcB", "dcB"⟩ else .error "no match" }

/-- A concrete DeleteVolume environment whose id resolution always
yields the dedicated not-found error. -/
def delEnvNotFound : DeleteEnv :=
  { resolveFCD := fun _ => .error .noDiskIDFound,
    deleteDisk := fun _ _ _ => none }

/-- A concrete publish environment whose id resolution always yields
the dedicated not-found error. -/
def pubEnvNotFound : PublishEnv :=
  { resolveFCD := fun _ => .error .noDiskIDFound,
    getVMByDNSName := fun _ => .ok "vm1",
    attachDisk := fun _ _ => .ok "uuid1",
    detachDisk := fun _ _ => none }

/-- A concrete publish environment whose id resolution succeeds with
`sampleDisk 0`. -/
def pubEnvOk : PublishEnv :=
  { pubEnvNotFound with resolveFCD := fun _ => .ok ⟨"vc1", "dc1", sampleDisk 0⟩ }

/-- C10: the parent-pool-type parameter defaults to the pool-cluster
kind — only an exact match with the single-datastore literal selects
the single-datastore kind, so every other string (misspelled or
unknown) is silently interpreted as a datastore cluster. -/
theorem parent_type_defaults_to_cluster :
    selectDatastoreType typeDatastoreString = DatastoreType.datastore ∧
    ∀ s : String, s ≠ typeDatastoreString →
      selectDatastoreType s = DatastoreType.datastoreCluster := by
  refine ⟨rfl, fun s h => ?_⟩
  unfold selectDatastoreType
  exact if_neg h

/-- C10 witness: the misspelled parent type "Datastor" selects the
datastore-cluster kind. -/
theorem parent_type_defaults_to_cluster_witness :
    ("Datastor" : String) ≠ typeDatastoreString ∧
    selectDatastoreType "Datastor" = DatastoreType.datastoreCluster :=
  ⟨by decide, parent_type_defaults_to_cluster.2 "Datastor" (by decide)⟩

/-- C8 counterexample: GetCapacity returns a nil (not non-nil)
response, and the snapshot operations return nil response and nil
error rather than an explicit unimplemented outcome; this refutes the
claim that GetCapacity returns a non-nil empty-but-successful result
and that the snapshot RPCs return an explicit "unimplemented"
outcome. -/
theorem stubs_counterexample :
    (getCapacity ⟨⟩).1 = none ∧
    createSnapshot ⟨⟩ = (none, none) ∧
    deleteSnapshot ⟨⟩ = (none, none) ∧
    listSnapshots ⟨⟩ = (none, none) := by
  exact ⟨rfl, rfl, rfl, rfl⟩

/-- C8 (amended): for every request, ValidateVolumeCapabilities
returns a non-nil empty response with no error, while GetCapacity,
CreateSnapshot, DeleteSnapshot and ListSnapshots return a nil
response with no error; none of the five touches any backend (they
are constant functions of their request). -/
theorem stubs_behavior :
    (∀ req, validateVolumeCapabilities req = (some ⟨⟩, none)) ∧
    (∀ req, getCapacity req = (none, none)) ∧
    (∀ req, createSnapshot req = (none, none)) ∧
    (∀ req, deleteSnapshot req = (none, none)) ∧
    (∀ req, listSnapshots req = (none, none)) :=
  ⟨fun _ => rfl, fun _ => rfl, fun _ => rfl, fun _ => rfl, fun _ => rfl⟩

/-- C9: the starting token "-1" parses as the integer -1, passes the
start-beyond-end check (a negative start is never greater than
total), and the subsequent Go slice uses a negative lower bound, so
ListVolumes neither returns an error nor a page — it panics (modelled
by `none`), with any max-entries value (shown for 3 and for 0). -/
theorem negative_token_not_handled :
    goAtoi "-1" = some (-1) ∧
    ¬ ((-1 : Int) > (disks10.length : Int)) ∧
    listVolumes disks10 "-1" 3 = none ∧
    listVolumes disks10 "-1" 0 = none := by
  refine ⟨by decide, by decide, by decide, by decide⟩

/-- C2 counterexample: CreateVolume with nil parameters returns a
`codes.Internal` error, and internal is not the invalid-argument
class; this refutes the claim that input-validation failures carry an
invalid-argument-class code. -/
theorem validation_invalid_argument_counterexample :
    (createVolume envEmptyPool ⟨"vol", none, none, none⟩).result =
      some (.error ⟨.internal, "Create parameters is a required parameter."⟩) ∧
    GrpcCode.internal ≠ GrpcCode.invalidArgument := by
  exact ⟨rfl, by decide⟩

/-- C2 (amended): every input-validation failure carries the
`codes.Internal` class: CreateVolume with nil parameters, empty name,
or a missing parent-pool-type or parent-pool-name parameter;
DeleteVolume, ControllerPublishVolume and ControllerUnpublishVolume
with an empty volume id (or empty node id for publish/unpublish); and
ListVolumes with a non-numeric starting token. -/
theorem validation_failures_internal :
    (∀ (env : CreateEnv) (name : String) (cr : Option CapacityRange)
       (acc : Option TopologyRequirement),
      (createVolume env ⟨name, none, cr, acc⟩).result =
        some (.error ⟨.internal, "Create parameters is a required parameter."⟩)) ∧
    (∀ (env : CreateEnv) (p : Params) (cr : Option CapacityRange)
       (acc : Option TopologyRequirement),
      (createVolume env ⟨"", some p, cr, acc⟩).result =
        some (.error ⟨.internal, "Volume name is a required parameter."⟩)) ∧
    (∀ (env : CreateEnv) (pn z r : String) (cr : Option CapacityRange)
       (acc : Option TopologyRequirement),
      (createVolume env ⟨"vol", some ⟨"", pn, z, r⟩, cr, acc⟩).result =
        some (.error ⟨.internal, "Volume parameter ParentType is a required parameter."⟩)) ∧
    (∀ (env : CreateEnv) (z r : String) (cr : Option CapacityRange)
       (acc : Option TopologyRequirement),
      (createVolume env ⟨"vol", some ⟨"Datastore", "", z, r⟩, cr, acc⟩).result =
        some (.error ⟨.internal, "Volume parameter ParentName is a required parameter."⟩)) ∧
    (∀ env : DeleteEnv, (deleteVolume env "").result =
      .error ⟨.internal, "Volume ID is a required parameter."⟩) ∧
    (∀ (env : PublishEnv) (nid : String), (controllerPublishVolume env "" nid).result =
      some (.error (.status ⟨.internal, "Volume ID is a required parameter."⟩))) ∧
    (∀ env : PublishEnv, (controllerPublishVolume env "vol" "").result =
      some (.error (.status ⟨.internal, "Node ID is a required parameter."⟩))) ∧
    (∀ (env : PublishEnv) (nid : String), (controllerUnpublishVolume env "" nid).result =
      some (.error (.status ⟨.internal, "Volume ID is a required parameter."⟩))) ∧
    (∀ env : PublishEnv, (controllerUnpublishVolume env "vol" "").result =
      some (.error (.status ⟨.internal, "Node ID is a required parameter."⟩))) ∧
    (∀ (disks : List FirstClassDisk) (me : Int),
      listVolumes disks "abc" me =
        some (.error ⟨.internal, "Invalid starting token abc."⟩)) :=
  ⟨fun _ _ _ _ => rfl, fun _ _ _ _ => rfl, fun _ _ _ _ _ _ => rfl,
   fun _ _ _ _ _ => rfl, fun _ => rfl, fun _ _ => rfl, fun _ => rfl,
   fun _ _ => rfl, fun _ => rfl, fun _ _ => rfl⟩

/-- C5: CreateVolume capacity arithmetic — no capacity range (or a
required-bytes of zero) yields the fixed 10 GiB default (10240 MB);
a request for 1 byte yields exactly 1024 MB (one gibibyte); and in
general a positive requested byte count is rounded up to the least
whole number of gibibytes and expressed in megabytes. -/
theorem capacity_rounding :
    computeVolSizeMB none = 10240 ∧
    (∀ cr : CapacityRange, cr.requiredBytes = 0 → computeVolSizeMB (some cr) = 10240) ∧
    computeVolSizeMB (some ⟨1⟩) = 1024 ∧
    (∀ b : Int, 0 < b → ∃ g : Int, 0 < g ∧
      computeVolSizeMB (some ⟨b⟩) = g * 1024 ∧
      (g - 1) * gbInBytes < b ∧ b ≤ g * gbInBytes) := by
  refine ⟨by decide, ?_, by decide, ?_⟩
  · intro cr h
    obtain ⟨rb⟩ := cr
    have h2 : rb = 0 := h
    subst h2
    decide
  · intro b hb
    have hbne : b ≠ 0 := by omega
    have h1 : computeVolSizeMB (some ⟨b⟩) =
        Int.tdiv (b + 1073741824 - 1) 1073741824 * 1024 := by
      simp [computeVolSizeMB, roundUpSize, hbne, gbInBytes]
    have htd : Int.tdiv (b + 1073741824 - 1) 1073741824 =
        (b + 1073741824 - 1) / 1073741824 :=
      Int.tdiv_eq_ediv (by omega) (by omega)
    have hqr := Int.ediv_add_emod (b + 1073741824 - 1) 1073741824
    have hr1 : 0 ≤ (b + 1073741824 - 1) % 1073741824 :=
      Int.emod_nonneg _ (by omega)
    have hr2 : (b + 1073741824 - 1) % 1073741824 < 1073741824 :=
      Int.emod_lt_of_pos _ (by omega)
    refine ⟨(b + 1073741824 - 1) / 1073741824, by omega, by rw [h1, htd], ?_, ?_⟩
    · rw [show gbInBytes = 1073741824 from rfl]
      omega
    · rw [show gbInBytes = 1073741824 from rfl]
      omega

/-- C5 witness: a required-bytes of zero yields the default 10240 MB,
and a 1-byte request is rounded up to one whole gibibyte. -/
theorem capacity_rounding_witness :
    computeVolSizeMB (some ⟨0⟩) = 10240 ∧
    (∃ g : Int, 0 < g ∧ computeVolSizeMB (some ⟨1⟩) = g * 1024 ∧
      (g - 1) * gbInBytes < 1 ∧ 1 ≤ g * gbInBytes) :=
  ⟨capacity_rounding.2.1 ⟨0⟩ rfl, capacity_rounding.2.2.2 1 (by decide)⟩

/-- C4: resolution failures with the dedicated not-found error are
handled asymmetrically — DeleteVolume returns success and issues no
delete call, while ControllerPublishVolume returns a
`codes.Internal` error and issues no attach call. -/
theorem notFound_asymmetry :
    (∀ (env : DeleteEnv) (vid : String), vid ≠ "" →
      env.resolveFCD vid = .error .noDiskIDFound →
      deleteVolume env vid = ⟨.ok (), 0⟩) ∧
    (∀ (env : PublishEnv) (vid nid : String), vid ≠ "" → nid ≠ "" →
      env.resolveFCD vid = .error .noDiskIDFound →
      controllerPublishVolume env vid nid =
        ⟨some (.error (.status ⟨.internal,
          "WhichVCandDCByFCDId(" ++ vid ++ ") failed. Err: " ++
            fcdIdErrString .noDiskIDFound⟩)), 0⟩) := by
  constructor
  · intro env vid hvid hres
    simp only [deleteVolume, if_neg hvid, hres]
  · intro env vid nid hvid hnid hres
    simp only [controllerPublishVolume, if_neg hvid, if_neg hnid, hres]

/-- C4 witness: on the concrete unresolvable id "fcd-1",
DeleteVolume succeeds with zero delete calls and
ControllerPublishVolume fails internal with zero attach calls. -/
theorem notFound_asymmetry_witness :
    deleteVolume delEnvNotFound "fcd-1" = ⟨.ok (), 0⟩ ∧
    controllerPublishVolume pubEnvNotFound "fcd-1" "node-1" =
      ⟨some (.error (.status ⟨.internal,
        "WhichVCandDCByFCDId(fcd-1) failed. Err: No disk ID found"⟩)), 0⟩ :=
  ⟨notFound_asymmetry.1 delEnvNotFound "fcd-1" (by decide) rfl,
   notFound_asymmetry.2 pubEnvNotFound "fcd-1" "node-1" (by decide) (by decide) rfl⟩

/-- Walking a segment list whose prefix all fails and which then
holds a succeeding segment stops at that segment: the remainder of
the list is never consulted. -/
theorem loopSegments_first_success (env : CreateEnv) (pre : List Segment)
    (seg : Segment) (post : List Segment) (di : ZoneDiscoveryInfo)
    (hpre : ∀ s ∈ pre, ∃ e,
      env.whichVCandDCByZone env.cfgZone env.cfgRegion s.zone s.region = .error e)
    (hok : env.whichVCandDCByZone env.cfgZone env.cfgRegion seg.zone seg.region = .ok di) :
    loopSegments env (pre ++ seg :: post) = (some di, none) := by
  have step : ∀ (s : Segment) (l : List Segment), loopSegments env (s :: l) =
      match env.whichVCandDCByZone env.cfgZone env.cfgRegion s.zone s.region with
      | .ok di2 => (some di2, none)
      | .error e =>
        match l with
        | [] => (none, some e)
        | r :: rs => loopSegments env (r :: rs) := fun _ _ => by rw [loopSegments]
  induction pre with
  | nil => rw [List.nil_append, step, hok]
  | cons p rest ih =>
    obtain ⟨e, he⟩ := hpre p (List.mem_cons_self p rest)
    have ih2 := ih (fun s hs => hpre s (List.mem_cons_of_mem p hs))
    cases rest with
    | nil =>
      rw [List.cons_append, step, he]
      exact ih2
    | cons q qs =>
      rw [List.cons_append, step, he]
      exact ih2

/-- C6: zone resolution is first-success-wins in caller-declared
order — with a requisite list present, the requisite segments are
walked in order and the first segment that resolves wins, for any
preferred list (which is therefore never attempted); with no
requisite list but a preferred list, the preferred segments are
walked the same way; with no topology requirement at all, the legacy
request zone/region pair is used directly. -/
theorem zone_resolution_first_success :
    (∀ (env : CreateEnv) (pre : List Segment) (seg : Segment) (post : List Segment)
       (prefs : Option (List Segment)) (z r : String) (di : ZoneDiscoveryInfo),
      (∀ s ∈ pre, ∃ e,
        env.whichVCandDCByZone env.cfgZone env.cfgRegion s.zone s.region = .error e) →
      env.whichVCandDCByZone env.cfgZone env.cfgRegion seg.zone seg.region = .ok di →
      resolveZone env (some ⟨some (pre ++ seg :: post), prefs⟩) z r = (some di, none)) ∧
    (∀ (env : CreateEnv) (pre : List Segment) (seg : Segment) (post : List Segment)
       (z r : String) (di : ZoneDiscoveryInfo),
      (∀ s ∈ pre, ∃ e,
        env.whichVCandDCByZone env.cfgZone env.cfgRegion s.zone s.region = .error e) →
      env.whichVCandDCByZone env.cfgZone env.cfgRegion seg.zone seg.region = .ok di →
      resolveZone env (some ⟨none, some (pre ++ seg :: post)⟩) z r = (some di, none)) ∧
    (∀ (env : CreateEnv) (z r : String) (di : ZoneDiscoveryInfo),
      env.whichVCandDCByZone env.cfgZone env.cfgRegion z r = .ok di →
      resolveZone env none z r = (some di, none)) := by
  refine ⟨?_, ?_, ?_⟩
  · intro env pre seg post prefs z r di hpre hok
    simp only [resolveZone]
    exact loopSegments_first_success env pre seg post di hpre hok
  · intro env pre seg post z r di hpre hok
    simp only [resolveZone]
    exact loopSegments_first_success env pre seg post di hpre hok
  · intro env z r di hok
    simp only [resolveZone, hok]

/-- C6 witness: with a requisite list [(zoneA, regionX) failing,
(zoneB, regionY) succeeding] and a non-empty preferred list, the
backend instance of (zoneB, regionY) is returned. -/
theorem zone_resolution_first_success_witness :
    resolveZone envZoneB
      (some ⟨some [⟨"zoneA", "regionX"⟩, ⟨"zoneB", "regionY"⟩],
             some [⟨"zoneC", "regionZ"⟩]⟩) "" "" =
      (some ⟨"vcB", "dcB"⟩, none) :=
  zone_resolution_first_success.1 envZoneB [⟨"zoneA", "regionX"⟩] ⟨"zoneB", "regionY"⟩ []
    (some [⟨"zoneC", "regionZ"⟩]) "" "" ⟨"vcB", "dcB"⟩
    (fun s hs => by
      simp only [List.mem_singleton] at hs
      subst hs
      exact ⟨"no match", by decide⟩)
    (by decide)

/-- A lookup by name in a pool that did not contain the name finds a
freshly appended disk carrying that name. -/
theorem findFCDByName_append_of_missing (pool : List FirstClassDisk)
    (d : FirstClassDisk) (n : String) (hmiss : findFCDByName pool n = none)
    (hn : d.name = n) : findFCDByName (pool ++ [d]) n = some d := by
  induction pool with
  | nil => simp [findFCDByName, hn]
  | cons p rest ih =>
    rw [List.cons_append]
    rw [findFCDByName] at hmiss ⊢
    by_cases h : p.name = n
    · rw [if_pos h] at hmiss
      cases hmiss
    · rw [if_neg h] at hmiss ⊢
      exact ih hmiss

/-- C3: CreateVolume is idempotent by (name, size) within one pool.
With valid inputs and a resolved backend instance: when a disk of the
requested name exists with equal capacity (in MB, after rounding) the
existing disk id is returned, no create call is issued and the pool
is unchanged; when it exists with different capacity the call fails
already-exists, again with no create call and the pool unchanged;
when the name is absent exactly one create call is issued, and (for a
backend whose created disk carries the requested name) it is followed
by a read-back by name whose descriptor is returned. -/
theorem createVolume_idempotent :
    ∀ (env : CreateEnv) (name pt pn z r : String) (cr : Option CapacityRange)
      (acc : Option TopologyRequirement) (di : ZoneDiscoveryInfo),
      name ≠ "" → pt ≠ "" → pn ≠ "" →
      resolveZone env acc z r = (some di, none) →
      (∀ d, findFCDByName env.pool name = some d →
        d.capacityInMB = computeVolSizeMB cr →
        createVolume env ⟨name, some ⟨pt, pn, z, r⟩, cr, acc⟩ =
          ⟨some (.ok (mkVolume di d)), 0, env.pool⟩) ∧
      (∀ d, findFCDByName env.pool name = some d →
        d.capacityInMB ≠ computeVolSizeMB cr →
        ∃ m, createVolume env ⟨name, some ⟨pt, pn, z, r⟩, cr, acc⟩ =
          ⟨some (.error ⟨.alreadyExists, m⟩), 0, env.pool⟩) ∧
      (findFCDByName env.pool name = none →
        (createVolume env ⟨name, some ⟨pt, pn, z, r⟩, cr, acc⟩).createCalls = 1) ∧
      (findFCDByName env.pool name = none → env.createErr = none →
        (env.allocate name (computeVolSizeMB cr)).name = name →
        createVolume env ⟨name, some ⟨pt, pn, z, r⟩, cr, acc⟩ =
          ⟨some (.ok (mkVolume di (env.allocate name (computeVolSizeMB cr)))), 1,
           env.pool ++ [env.allocate name (computeVolSizeMB cr)]⟩) := by
  intro env name pt pn z r cr acc di hname hpt hpn hres
  have hbody : createVolume env ⟨name, some ⟨pt, pn, z, r⟩, cr, acc⟩ =
      match findFCDByName env.pool name with
      | some disk =>
        if disk.capacityInMB ≠ computeVolSizeMB cr then
          ⟨some (.error ⟨.alreadyExists,
            "Volume already exists but requesting different size. Existing " ++
              toString disk.capacityInMB ++ " != Requested " ++
              toString (computeVolSizeMB cr)⟩), 0, env.pool⟩
        else ⟨some (.ok (mkVolume di disk)), 0, env.pool⟩
      | none =>
        match env.createErr with
        | some e =>
          ⟨some (.error ⟨.internal, "CreateFirstClassDisk failed. Err: " ++ e⟩), 1, env.pool⟩
        | none =>
          match findFCDByName (env.pool ++ [env.allocate name (computeVolSizeMB cr)]) name with
          | none =>
            ⟨some (.error ⟨.internal,
              "GetFirstClassDiskByName(" ++ name ++ ") failed."⟩), 1,
             env.pool ++ [env.allocate name (computeVolSizeMB cr)]⟩
          | some disk =>
            ⟨some (.ok (mkVolume di disk)), 1,
             env.pool ++ [env.allocate name (computeVolSizeMB cr)]⟩ := by
    rw [createVolume]
    dsimp only
    rw [if_neg hname, if_neg hpt, if_neg hpn, hres]
  refine ⟨?_, ?_, ?_, ?_⟩
  · intro d hd hcap
    rw [hbody, hd]
    dsimp only
    rw [if_neg (not_not_intro hcap)]
  · intro d hd hcap
    refine ⟨"Volume already exists but requesting different size. Existing " ++
      toString d.capacityInMB ++ " != Requested " ++ toString (computeVolSizeMB cr), ?_⟩
    rw [hbody, hd]
    dsimp only
    rw [if_pos hcap]
  · intro hmiss
    rw [hbody, hmiss]
    dsimp only
    cases env.createErr with
    | some e => rfl
    | none =>
      cases findFCDByName (env.pool ++ [env.allocate name (computeVolSizeMB cr)]) name with
      | none => rfl
      | some disk => rfl
  · intro hmiss hce halloc
    rw [hbody, hmiss]
    dsimp only
    rw [hce]
    dsimp only
    rw [findFCDByName_append_of_missing env.pool (env.allocate name (computeVolSizeMB cr))
      name hmiss halloc]

/-- C3 witness: against a pool already holding `vol0` at 10240 MB, a
same-name same-size request returns the existing disk with no create
call and an unchanged pool; a same-name 1-byte request (1024 MB)
fails already-exists; a fresh-name request issues one create call and
returns the read-back descriptor. -/
theorem createVolume_idempotent_witness :
    createVolume envWithPool ⟨"vol0", some ⟨"Datastore", "ds1", "", ""⟩, none, none⟩ =
      ⟨some (.ok (mkVolume sampleDI existingDisk)), 0, envWithPool.pool⟩ ∧
    (∃ m, createVolume envWithPool ⟨"vol0", some ⟨"Datastore", "ds1", "", ""⟩,
        some ⟨1⟩, none⟩ =
      ⟨some (.error ⟨.alreadyExists, m⟩), 0, envWithPool.pool⟩) ∧
    createVolume envWithPool ⟨"vol1", some ⟨"Datastore", "ds1", "", ""⟩, none, none⟩ =
      ⟨some (.ok (mkVolume sampleDI (envWithPool.allocate "vol1" 10240))), 1,
       envWithPool.pool ++ [envWithPool.allocate "vol1" 10240]⟩ := by
  refine ⟨?_, ?_, ?_⟩
  · exact (createVolume_idempotent envWithPool "vol0" "Datastore" "ds1" "" "" none none
      sampleDI (by decide) (by decide) (by decide) (by decide)).1 existingDisk
      (by decide) (by decide)
  · exact (createVolume_idempotent envWithPool "vol0" "Datastore" "ds1" "" ""
      (some ⟨1⟩) none sampleDI (by decide) (by decide) (by decide) (by decide)).2.1
      existingDisk (by decide) (by decide)
  · exact (createVolume_idempotent envWithPool "vol1" "Datastore" "ds1" "" "" none none
      sampleDI (by decide) (by decide) (by decide) (by decide)).2.2.2
      (by decide) (by decide) (by decide)

/-- Every attribute map built by `mkAttributes` binds the six
standard keys and binds the owning datastore exactly when the parent
type is the datastore cluster. -/
theorem mkAttributes_complete (vc dc : String) (f : FirstClassDisk) :
    attrMapComplete (mkAttributes vc dc f) ∧
    lookupAttr (mkAttributes vc dc f) AttrKey.parentType =
      some (datastoreTypeString f.parentType) := by
  obtain ⟨n, i, c, pt, sp, ds, b, dcn, vh⟩ := f
  cases pt <;>
    simp [attrMapComplete, mkAttributes, lookupAttr, datastoreTypeString,
      typeDatastoreString, typeDatastoreClusterString]

/-- Appending the page-83 binding preserves the attribute-map
invariant. -/
theorem mkAttributes_page83_complete (vc dc : String) (f : FirstClassDisk) (u : String) :
    attrMapComplete (mkAttributes vc dc f ++ [(AttrKey.page83Data, u)]) := by
  obtain ⟨n, i, c, pt, sp, ds, b, dcn, vh⟩ := f
  cases pt <;>
    simp [attrMapComplete, mkAttributes, lookupAttr, datastoreTypeString,
      typeDatastoreString, typeDatastoreClusterString]

/-- C7: every attribute map returned to the caller — the volume
context of a successful CreateVolume, the publish context of a
successful ControllerPublishVolume, and the volume context of every
ListVolumes entry — binds the backend type marker, vCenter endpoint,
datacenter, disk name, parent-pool type and parent-pool name, and
binds the owning datastore exactly when the recorded parent type is
the pool-cluster kind. -/
theorem attribute_map_keys :
    (∀ (env : CreateEnv) (req : CreateVolumeRequest) (v : CsiVolume),
      (createVolume env req).result = some (.ok v) →
      attrMapComplete v.volumeContext) ∧
    (∀ (env : PublishEnv) (vid nid : String) (resp : PublishResp),
      (controllerPublishVolume env vid nid).result = some (.ok resp) →
      attrMapComplete resp.publishContext) ∧
    (∀ (disks : List FirstClassDisk) (tok : String) (me : Int) (resp : ListResp)
       (v : CsiVolume),
      listVolumes disks tok me = some (.ok resp) → v ∈ resp.entries →
      attrMapComplete v.volumeContext) := by
  refine ⟨?_, ?_, ?_⟩
  · intro env req v h
    unfold createVolume at h
    repeat'
      first
      | split at h
      | dsimp only at h
    all_goals simp only [Option.some.injEq, Except.ok.injEq, reduceCtorEq] at h
    all_goals subst h
    all_goals exact (mkAttributes_complete _ _ _).1
  · intro env vid nid resp h
    unfold controllerPublishVolume at h
    repeat'
      first
      | split at h
      | dsimp only at h
    all_goals simp only [Option.some.injEq, Except.ok.injEq, reduceCtorEq] at h
    all_goals subst h
    all_goals exact mkAttributes_page83_complete _ _ _ _
  · intro disks tok me resp v h hv
    unfold listVolumes at h
    repeat'
      first
      | split at h
      | dsimp only at h
    all_goals simp only [Option.some.injEq, Except.ok.injEq, reduceCtorEq] at h
    all_goals subst h
    all_goals dsimp only at hv
    all_goals
      obtain ⟨d, hd, rfl⟩ := List.mem_map.mp hv
    all_goals exact (mkAttributes_complete _ _ _).1

/-- C7 witness: the volume context of a concrete successful
CreateVolume, the publish context of a concrete successful
ControllerPublishVolume, and the volume context of a concrete
ListVolumes entry all satisfy the attribute-map invariant. -/
theorem attribute_map_keys_witness :
    attrMapComplete (mkVolume sampleDI (sampleAllocate "vol1" 10240)).volumeContext ∧
    attrMapComplete (mkAttributes "vc1" "dc1" (sampleDisk 0) ++
      [(AttrKey.page83Data, "uuid1")]) ∧
    attrMapComplete (mkListEntry (sampleDisk 0)).volumeContext :=
  ⟨attribute_map_keys.1 envEmptyPool ⟨"vol1", some ⟨"Datastore", "ds1", "", ""⟩, none, none⟩
      (mkVolume sampleDI (sampleAllocate "vol1" 10240)) (by decide),
   attribute_map_keys.2.1 pubEnvOk "fcd1" "node1"
      ⟨mkAttributes "vc1" "dc1" (sampleDisk 0) ++ [(AttrKey.page83Data, "uuid1")]⟩
      (by decide),
   attribute_map_keys.2.2 disks3 "" 0 ⟨disks3.map mkListEntry, none⟩
      (mkListEntry (sampleDisk 0)) (by decide) (by decide)⟩

/-- C1 counterexample: over 3 disks with maxEntries = 3 and an empty
starting token, the claim formula takes its "else" branch (the
remaining set, 3 disks, is not smaller than maxEntries = 3), giving
stop = 0 + 3 - 1 = 2 < 3 = total and hence predicting a next token
"3"; the code instead leaves stop = total (line 414 compares total,
not the remaining count, against maxEntries) and returns the full
page with NO next token. -/
theorem listVolumes_claim_pagination_counterexample :
    pageIds (listVolumes disks3 "" 3) = some ["0", "1", "2"] ∧
    pageNext (listVolumes disks3 "" 3) = some none :=
  ⟨by decide, by decide⟩

/-- C1 (amended): the worked example over 10 disks holds exactly as
claimed — pages [0,2] next "3", [3,5] next "6", [6,8] next "9",
[9,9] no next token — and in general, for a non-negative parsed
start within bounds and non-negative maxEntries, the returned page is
the slice of the disk list from start through stop clamped to
existing indices, where stop = total when maxEntries is zero or
total is at most maxEntries (not: when the remaining set is smaller
than maxEntries), else stop = start + maxEntries - 1, with a next
token of stop + 1 present iff stop < total. -/
theorem listVolumes_pagination :
    (pageIds (listVolumes disks10 "" 3) = some ["0", "1", "2"] ∧
     pageNext (listVolumes disks10 "" 3) = some (some "3")) ∧
    (pageIds (listVolumes disks10 "3" 3) = some ["3", "4", "5"] ∧
     pageNext (listVolumes disks10 "3" 3) = some (some "6")) ∧
    (pageIds (listVolumes disks10 "6" 3) = some ["6", "7", "8"] ∧
     pageNext (listVolumes disks10 "6" 3) = some (some "9")) ∧
    (pageIds (listVolumes disks10 "9" 3) = some ["9"] ∧
     pageNext (listVolumes disks10 "9" 3) = some none) ∧
    (∀ (disks : List FirstClassDisk) (tok : String) (me start : Int),
      (tok = "" ∧ start = 0 ∨ tok ≠ "" ∧ goAtoi tok = some start) →
      0 ≤ start → start ≤ (disks.length : Int) → 0 ≤ me →
      listVolumes disks tok me =
        some (.ok
          { entries := ((disks.drop start.toNat).take
              ((paginationStop disks.length me start + 1 - start).toNat)).map mkListEntry
            nextToken :=
              if paginationStop disks.length me start < (disks.length : Int) then
                some (toString (paginationStop disks.length me start + 1))
              else none })) := by
  refine ⟨⟨by decide, by decide⟩, ⟨by decide, by decide⟩, ⟨by decide, by decide⟩,
    ⟨by decide, by decide⟩, ?_⟩
  intro disks tok me start htok h0 hlen hme
  unfold listVolumes
  dsimp only
  split
  case h_1 e heq =>
    exfalso
    rcases htok with ⟨he, h0s⟩ | ⟨hne, hp⟩
    · subst he
      rw [if_pos rfl] at heq
      cases heq
    · rw [if_neg hne, hp] at heq
      dsimp only at heq
      cases heq
  case h_2 start2 heq =>
    have hstart : start2 = start := by
      rcases htok with ⟨he, h0s⟩ | ⟨hne, hp⟩
      · subst he
        rw [if_pos rfl] at heq
        injection heq with h2
        omega
      · rw [if_neg hne, hp] at heq
        dsimp only at heq
        injection heq with h2
        exact h2.symm
    subst hstart
    rw [if_neg (not_lt.mpr hlen)]
    rw [paginationStop]
    by_cases hc : me ≠ 0 ∧ ((disks.length : Nat) : Int) > me
    · rw [if_pos hc]
      by_cases hstop : start2 + me - 1 ≥ ((disks.length : Nat) : Int)
      · rw [if_pos hstop]
        rw [goSliceFrom, if_pos ⟨h0, hlen⟩]
        dsimp only
        rw [List.take_of_length_le (by simp only [List.length_drop]; omega)]
      · rw [if_neg hstop]
        rw [goSlice, if_pos ⟨h0, by omega, by omega⟩]
        dsimp only
        rw [List.drop_take]
        rw [show (start2 + me - 1 + 1).toNat - start2.toNat =
          (start2 + me - 1 + 1 - start2).toNat by omega]
    · rw [if_neg hc]
      rw [if_pos (le_refl ((disks.length : Nat) : Int))]
      rw [goSliceFrom, if_pos ⟨h0, hlen⟩]
      dsimp only
      rw [List.take_of_length_le (by simp only [List.length_drop]; omega)]

/-- C1 witness: the general pagination formula applied at the second
page of the worked example (10 disks, token "3", maxEntries 3). -/
theorem listVolumes_pagination_witness :
    listVolumes disks10 "3" 3 =
      some (.ok
        { entries := ((disks10.drop (3 : Int).toNat).take
            ((paginationStop disks10.length 3 3 + 1 - 3).toNat)).map mkListEntry
          nextToken :=
            if paginationStop disks10.length 3 3 < (disks10.length : Int) then
              some (toString (paginationStop disks10.length 3 3 + 1))
            else none }) :=
  listVolumes_pagination.2.2.2.2 disks10 "3" 3 3
    (Or.inr ⟨by decide, by decide⟩) (by decide) (by decide) (by decide)

end FCD
